import Mathlib

/-!
Verification development for a small GitHub-App web service consisting of
two cores: the webhook signature-verification handler (`src/server.js`,
`app.post('/webhook')`) and the repository-analysis pipeline
(`lib/analyze.js`, `analyzeRepo` and its helpers).

The JavaScript is shallowly embedded: request bodies and headers are
strings, JavaScript truthiness of an optional string is `jsTruthy`
(absent or empty string is falsy), the HMAC primitives and the regex
engine are oracle parameters (the control flow around them is what is
modelled from the source), and `crypto.timingSafeEqual` is modelled by a
byte-wise fold over equal-length character lists together with an
explicit count of compared positions, which serves as the timing
observable.  Buffers are modelled at character granularity (the digests
compared by the source are ASCII hex strings, where characters and bytes
coincide).
-/

/-- JSON values as produced by `JSON.parse`; the handler only needs to
distinguish `null` from the empty object `{}`, but the type is kept
faithful to JSON's shape. -/
inductive Json where
  | null
  | bool (b : Bool)
  | num (n : Int)
  | str (s : String)
  | arr (elems : List Json)
  | obj (fields : List (String × Json))

/-- JavaScript truthiness of an optional string: `undefined` and the
empty string are falsy, every other string is truthy. -/
def jsTruthy : Option String → Bool
  | none => false
  | some s => s != ""

/-- JavaScript `a || b` for an optional string `a` and a string `b`. -/
def jsOrStr (a : Option String) (b : String) : String :=
  match a with
  | some s => if s != "" then s else b
  | none => b

/-- JavaScript `a || b` where the result is stored back into an optional
slot (`x = x || v` on a possibly-null field). -/
def jsOrOpt (a : Option String) (b : String) : Option String :=
  if jsTruthy a then a else some b

/-- Model of `crypto.timingSafeEqual` on two equal-length buffers: a fold
over the zipped characters that inspects every position (the primitive's
constant-time contract), returning whether all positions agree. -/
def timingSafeEqual (a b : List Char) : Bool :=
  (a.zip b).foldl (fun acc p => acc && (p.1 == p.2)) true

/-- `src/server.js` lines 110–117/121–126: the comparison step of the
handler.  `if (headerBuf.length !== computedBuf.length || !crypto.timingSafeEqual(...))`
short-circuits, so on a length mismatch no byte of content is compared.
Returns the pass/fail verdict together with the number of byte positions
compared by `timingSafeEqual` (0 when it is never invoked). -/
def checkSig (header computed : String) : Bool × Nat :=
  if header.length != computed.length then (false, 0)
  else (timingSafeEqual header.data computed.data, computed.length)

structure WebhookConfig where
  secret : String
  skipVerify : Bool

/-- The HMAC primitives (`crypto.createHmac(alg, secret).update(body).digest('hex')`)
as oracles: secret and raw body in, lowercase hex digest out. -/
structure HmacOracle where
  hmacSha256 : String → String → String
  hmacSha1 : String → String → String

structure WebhookRequest where
  body : String
  sig256 : Option String
  sig1 : Option String
  eventHeader : Option String
  deliveryHeader : Option String

structure WebhookEvent where
  kind : String
  deliveryId : String
  payload : Json

/-- Outcome of the `/webhook` route: HTTP status, response text, the
event produced on acceptance, and the count of byte positions compared
by `timingSafeEqual` (the timing observable of the request). -/
structure HandlerResult where
  status : Nat
  text : String
  event : Option WebhookEvent
  byteComparisons : Nat

/-- `src/server.js` lines 136–163: the acceptance tail of the handler.
`event = headers['x-github-event'] || 'unknown'`,
`delivery = headers['x-github-delivery'] || ''`, then
`let payload = {}` followed by a guarded `payload = JSON.parse(body)`
whose failure is caught and logged, leaving `{}` in place. -/
def acceptEvent (parse : String → Option Json) (req : WebhookRequest) (cost : Nat) : HandlerResult :=
  { status := 200
  , text := "ok"
  , event := some
      { kind := jsOrStr req.eventHeader ("unknown")
      , deliveryId := jsOrStr req.deliveryHeader ("")
      , payload := match parse req.body with
          | some j => j
          | none => Json.obj [] }
  , byteComparisons := cost }

/-- `src/server.js` lines 86–167: the `/webhook` handler.  With
verification enabled, an empty secret yields 500; otherwise the sha256
header is checked when truthy, else the sha1 header when truthy, else
401 for a missing signature.  `parse` is the `JSON.parse` oracle. -/
def webhookHandler (cfg : WebhookConfig) (hmac : HmacOracle)
    (parse : String → Option Json) (req : WebhookRequest) : HandlerResult :=
  if !cfg.skipVerify then
    if cfg.secret == "" then
      { status := 500, text := "Webhook secret not configured on server", event := none, byteComparisons := 0 }
    else if jsTruthy req.sig256 then
      let header := req.sig256.getD ("")
      let computed := "sha256=" ++ hmac.hmacSha256 cfg.secret req.body
      let c := checkSig header computed
      if c.1 then acceptEvent parse req c.2
      else { status := 401, text := "Invalid signature", event := none, byteComparisons := c.2 }
    else if jsTruthy req.sig1 then
      let header := req.sig1.getD ("")
      let computed := "sha1=" ++ hmac.hmacSha1 cfg.secret req.body
      let c := checkSig header computed
      if c.1 then acceptEvent parse req c.2
      else { status := 401, text := "Invalid signature", event := none, byteComparisons := c.2 }
    else { status := 401, text := "Missing signature header", event := none, byteComparisons := 0 }
  else acceptEvent parse req 0

/-- `timingSafeEqual` on a buffer against itself always succeeds. -/
theorem timingSafeEqual_self (a : List Char) : timingSafeEqual a a = true := by
  unfold timingSafeEqual
  induction a with
  | nil => rfl
  | cons x xs ih =>
    simp [List.zip_cons_cons] at *
    simpa using ih

/-- Appending a nonempty literal prefix never yields the empty string. -/
theorem prefixed_ne_empty (p x : String) (hp : p.length ≠ 0) : p ++ x ≠ "" := by
  intro contra
  have hlen := congrArg String.length contra
  rw [String.length_append] at hlen
  simp at hlen
  exact hp hlen.1

/-- C1: with `skipVerification = false` and an empty configured secret, the
`/webhook` handler answers 500 ("Webhook secret not configured on server")
and produces no event, for every body, every header combination and every
HMAC/parse oracle — it never accepts such a request. -/
theorem spec_c1 (hmac : HmacOracle) (parse : String → Option Json) (req : WebhookRequest) :
    webhookHandler ⟨"", false⟩ hmac parse req =
      { status := 500, text := "Webhook secret not configured on server"
      , event := none, byteComparisons := 0 } := rfl

/-- `checkSig` on strings of different lengths: rejected with zero byte
positions compared (`timingSafeEqual` is never invoked). -/
theorem checkSig_len_ne (a b : String) (hab : a.length ≠ b.length) :
    checkSig a b = (false, 0) := by
  unfold checkSig
  rw [if_pos (by simp [hab])]

/-- `checkSig` on strings of equal length: the timing-safe comparison is
performed over every position. -/
theorem checkSig_len_eq (a b : String) (hab : a.length = b.length) :
    checkSig a b = (timingSafeEqual a.data b.data, b.length) := by
  unfold checkSig
  rw [if_neg (by simp [hab])]

/-- Control-flow of the handler on the sha256 branch: with verification
enabled, a non-empty secret and a truthy sha256 header, the outcome is
decided by `checkSig` against the sha256 digest. -/
theorem webhookHandler_sig256_branch (cfg : WebhookConfig) (hm : HmacOracle)
    (parse : String → Option Json) (req : WebhookRequest) (h : String)
    (hskip : cfg.skipVerify = false) (hsec : cfg.secret ≠ "")
    (hsig : req.sig256 = some h) (hh : h ≠ "") :
    webhookHandler cfg hm parse req =
      (if (checkSig h ("sha256=" ++ hm.hmacSha256 cfg.secret req.body)).1 then
        acceptEvent parse req (checkSig h ("sha256=" ++ hm.hmacSha256 cfg.secret req.body)).2
      else
        { status := 401, text := "Invalid signature", event := none
        , byteComparisons := (checkSig h ("sha256=" ++ hm.hmacSha256 cfg.secret req.body)).2 }) := by
  have hsecb : (cfg.secret == "") = false := by simp [hsec]
  have hhb : jsTruthy (some h) = true := by simp [jsTruthy, hh]
  unfold webhookHandler
  rw [hskip, hsig]
  simp [hsecb, hhb]

/-- Control-flow of the handler on the sha1 fallback branch: with
verification enabled, a non-empty secret, a falsy sha256 header and a
truthy sha1 header, the outcome is decided by `checkSig` against the
sha1 digest. -/
theorem webhookHandler_sig1_branch (cfg : WebhookConfig) (hm : HmacOracle)
    (parse : String → Option Json) (req : WebhookRequest) (h1 : String)
    (hskip : cfg.skipVerify = false) (hsec : cfg.secret ≠ "")
    (hsig256 : jsTruthy req.sig256 = false)
    (hsig : req.sig1 = some h1) (hh : h1 ≠ "") :
    webhookHandler cfg hm parse req =
      (if (checkSig h1 ("sha1=" ++ hm.hmacSha1 cfg.secret req.body)).1 then
        acceptEvent parse req (checkSig h1 ("sha1=" ++ hm.hmacSha1 cfg.secret req.body)).2
      else
        { status := 401, text := "Invalid signature", event := none
        , byteComparisons := (checkSig h1 ("sha1=" ++ hm.hmacSha1 cfg.secret req.body)).2 }) := by
  have hsecb : (cfg.secret == "") = false := by simp [hsec]
  have hhb : jsTruthy (some h1) = true := by simp [jsTruthy, hh]
  unfold webhookHandler
  rw [hskip, hsig]
  simp [hsecb, hsig256, hhb]

/-- C2: on the verification path (secret non-empty, verification enabled,
a truthy signature header), a header whose length differs from the
computed prefixed digest is rejected with 401 "Invalid signature" and
zero byte positions are compared (`timingSafeEqual` is short-circuited
away); when the lengths are equal, the number of compared byte positions
equals the digest length — a function of the length alone, independent of
the header's or digest's content, so the timing observable leaks nothing
beyond the length check.  Both the sha256 branch and the sha1 fallback
branch are covered. -/
theorem spec_c2 (s : String) (hm : HmacOracle) (parse : String → Option Json)
    (body h h1 : String) (s1 ev dv : Option String)
    (hs : s ≠ "") (hh : h ≠ "") (hh1 : h1 ≠ "") :
    (h.length ≠ ("sha256=" ++ hm.hmacSha256 s body).length →
      webhookHandler ⟨s, false⟩ hm parse ⟨body, some h, s1, ev, dv⟩ =
        { status := 401, text := "Invalid signature", event := none, byteComparisons := 0 }) ∧
    (h.length = ("sha256=" ++ hm.hmacSha256 s body).length →
      (webhookHandler ⟨s, false⟩ hm parse ⟨body, some h, s1, ev, dv⟩).byteComparisons =
        ("sha256=" ++ hm.hmacSha256 s body).length) ∧
    (h1.length ≠ ("sha1=" ++ hm.hmacSha1 s body).length →
      webhookHandler ⟨s, false⟩ hm parse ⟨body, none, some h1, ev, dv⟩ =
        { status := 401, text := "Invalid signature", event := none, byteComparisons := 0 }) ∧
    (h1.length = ("sha1=" ++ hm.hmacSha1 s body).length →
      (webhookHandler ⟨s, false⟩ hm parse ⟨body, none, some h1, ev, dv⟩).byteComparisons =
        ("sha1=" ++ hm.hmacSha1 s body).length) := by
  refine ⟨?_, ?_, ?_, ?_⟩
  · intro hlen
    rw [webhookHandler_sig256_branch _ _ _ _ h rfl hs rfl hh, checkSig_len_ne _ _ hlen]
    simp
  · intro hlen
    rw [webhookHandler_sig256_branch _ _ _ _ h rfl hs rfl hh, checkSig_len_eq _ _ hlen]
    cases htse : timingSafeEqual h.data ("sha256=" ++ hm.hmacSha256 s body).data <;>
      simp [htse, acceptEvent]
  · intro hlen
    rw [webhookHandler_sig1_branch ⟨s, false⟩ hm parse ⟨body, none, some h1, ev, dv⟩ h1 rfl hs rfl rfl hh1,
      checkSig_len_ne _ _ hlen]
    simp
  · intro hlen
    rw [webhookHandler_sig1_branch ⟨s, false⟩ hm parse ⟨body, none, some h1, ev, dv⟩ h1 rfl hs rfl rfl hh1,
      checkSig_len_eq _ _ hlen]
    cases htse : timingSafeEqual h1.data ("sha1=" ++ hm.hmacSha1 s body).data <;>
      simp [htse, acceptEvent]

/-- Closed witness for `spec_c2`: with secret "k", a constant digest
oracle and the one-character header "x" (length 1 ≠ 9), the handler
rejects with 401 and performs no byte comparison. -/
theorem spec_c2_witness :
    (webhookHandler ⟨"k", false⟩ ⟨fun _ _ => "aa", fun _ _ => "bb"⟩ (fun _ => none)
        ⟨"x", some ("x"), none, none, none⟩).status = 401 ∧
    (webhookHandler ⟨"k", false⟩ ⟨fun _ _ => "aa", fun _ _ => "bb"⟩ (fun _ => none)
        ⟨"x", some ("x"), none, none, none⟩).byteComparisons = 0 := by
  have h := (spec_c2 "k" ⟨fun _ _ => "aa", fun _ _ => "bb"⟩ (fun _ => none)
      "x" "x" "y" none none none (by decide) (by decide) (by decide)).1 (by decide)
  rw [h]
  exact ⟨rfl, rfl⟩

/-- C3 counterexample: both signature headers are present (the sha256
header carries the empty string, which JavaScript treats as falsy), the
secret is non-empty and verification is enabled — yet the outcome is
decided by the sha1 header: a matching sha1 signature is accepted (200)
and a non-matching one rejected (401), with identical sha256 headers in
both requests.  Had verification been decided solely by the sha256
header, both requests would have been rejected (the empty header cannot
match a "sha256="-prefixed digest); so the sha1 header is not ignored
and the claim as stated is false at this input. -/
theorem spec_c3_counterexample :
    (webhookHandler ⟨"k", false⟩ ⟨fun _ _ => "aa", fun _ _ => "bb"⟩ (fun _ => none)
        ⟨"x", some (""), some ("sha1=bb"), none, none⟩).status = 200 ∧
    (webhookHandler ⟨"k", false⟩ ⟨fun _ _ => "aa", fun _ _ => "bb"⟩ (fun _ => none)
        ⟨"x", some (""), some ("sha1=zz"), none, none⟩).status = 401 := by
  exact ⟨by decide, by decide⟩

/-- C3 (amended): when the sha256 signature header is present with a
non-empty (truthy) value, verification is decided solely by it — the
result of the handler is identical whatever the sha1 header holds, and
(with a non-empty secret) the status is exactly the sha256 `checkSig`
verdict against `"sha256=" ++ hex(HMAC-SHA256(secret, rawBody))`.  The
sha1 fallback is used only when the sha256 header is absent or empty. -/
theorem spec_c3 (s : String) (hm : HmacOracle) (parse : String → Option Json)
    (body h : String) (s1 ev dv : Option String) (hh : h ≠ "") :
    webhookHandler ⟨s, false⟩ hm parse ⟨body, some h, s1, ev, dv⟩ =
      webhookHandler ⟨s, false⟩ hm parse ⟨body, some h, none, ev, dv⟩ ∧
    (s ≠ "" →
      (webhookHandler ⟨s, false⟩ hm parse ⟨body, some h, s1, ev, dv⟩).status =
        (if (checkSig h ("sha256=" ++ hm.hmacSha256 s body)).1 then 200 else 401)) := by
  constructor
  · by_cases hs : s = ""
    · subst hs
      rfl
    · rw [webhookHandler_sig256_branch ⟨s, false⟩ hm parse ⟨body, some h, s1, ev, dv⟩ h rfl hs rfl hh,
        webhookHandler_sig256_branch ⟨s, false⟩ hm parse ⟨body, some h, none, ev, dv⟩ h rfl hs rfl hh]
      cases hc : (checkSig h ("sha256=" ++ hm.hmacSha256 s body)).1 <;> simp [acceptEvent]
  · intro hs
    rw [webhookHandler_sig256_branch ⟨s, false⟩ hm parse ⟨body, some h, s1, ev, dv⟩ h rfl hs rfl hh]
    cases hc : (checkSig h ("sha256=" ++ hm.hmacSha256 s body)).1 <;> simp [acceptEvent, hc]

/-- Closed witness for `spec_c3`: with a truthy sha256 header the result
does not depend on the sha1 header, and the status follows the sha256
verdict (here: a match, hence 200). -/
theorem spec_c3_witness :
    (webhookHandler ⟨"k", false⟩ ⟨fun _ _ => "aa", fun _ _ => "bb"⟩ (fun _ => none)
        ⟨"x", some ("sha256=aa"), some ("sha1=zz"), none, none⟩) =
      (webhookHandler ⟨"k", false⟩ ⟨fun _ _ => "aa", fun _ _ => "bb"⟩ (fun _ => none)
        ⟨"x", some ("sha256=aa"), none, none, none⟩) ∧
    (webhookHandler ⟨"k", false⟩ ⟨fun _ _ => "aa", fun _ _ => "bb"⟩ (fun _ => none)
        ⟨"x", some ("sha256=aa"), some ("sha1=zz"), none, none⟩).status = 200 := by
  have h := spec_c3 "k" ⟨fun _ _ => "aa", fun _ _ => "bb"⟩ (fun _ => none)
      "x" "sha256=aa" (some ("sha1=zz")) none none (by decide)
  exact ⟨h.1, by rw [h.2 (by decide)]; rfl⟩

/-- C4 counterexample: a request that passes sha256 verification while
its body fails JSON parsing is accepted with 200, but the resulting
event's payload is the empty object `{}` (the handler initialises
`payload = {}` and the failed parse leaves it unchanged), which is not
`null` as the claim states. -/
theorem spec_c4_counterexample :
    (webhookHandler ⟨"k", false⟩ ⟨fun _ _ => "aa", fun _ _ => "bb"⟩ (fun _ => none)
        ⟨"notjson", some ("sha256=aa"), none, some ("push"), some ("d1")⟩).status = 200 ∧
    (webhookHandler ⟨"k", false⟩ ⟨fun _ _ => "aa", fun _ _ => "bb"⟩ (fun _ => none)
        ⟨"notjson", some ("sha256=aa"), none, some ("push"), some ("d1")⟩).event.map
      (fun e => e.payload) = some (Json.obj []) ∧
    Json.obj [] ≠ Json.null := by
  refine ⟨by decide, rfl, fun hcontra => Json.noConfusion hcontra⟩

/-- C4 (amended): an accepted webhook request whose raw body fails JSON
parsing still yields HTTP 200 — parse failure is never a verification
failure — and the resulting event's payload is the empty object `{}`
(not `null`): the handler initialises `payload = {}` and the caught
parse exception leaves that initial value in place. -/
theorem spec_c4 (s body : String) (hm : HmacOracle) (parse : String → Option Json)
    (s1 ev dv : Option String) (hs : s ≠ "") (hp : parse body = none) :
    (webhookHandler ⟨s, false⟩ hm parse
        ⟨body, some ("sha256=" ++ hm.hmacSha256 s body), s1, ev, dv⟩).status = 200 ∧
    (webhookHandler ⟨s, false⟩ hm parse
        ⟨body, some ("sha256=" ++ hm.hmacSha256 s body), s1, ev, dv⟩).event.map
      (fun e => e.payload) = some (Json.obj []) := by
  have hne : ("sha256=" ++ hm.hmacSha256 s body) ≠ "" :=
    prefixed_ne_empty _ _ (by decide)
  rw [webhookHandler_sig256_branch ⟨s, false⟩ hm parse
      ⟨body, some ("sha256=" ++ hm.hmacSha256 s body), s1, ev, dv⟩ _ rfl hs rfl hne,
    checkSig_len_eq _ _ rfl]
  simp [timingSafeEqual_self, acceptEvent, hp]

/-- Closed witness for `spec_c4`: a concrete accepted request with an
unparseable body is answered 200 and carries payload `{}`. -/
theorem spec_c4_witness :
    (webhookHandler ⟨"k", false⟩ ⟨fun _ _ => "aa", fun _ _ => "bb"⟩ (fun _ => none)
        ⟨"notjson2", some ("sha256=" ++ "aa"), none, none, none⟩).status = 200 ∧
    (webhookHandler ⟨"k", false⟩ ⟨fun _ _ => "aa", fun _ _ => "bb"⟩ (fun _ => none)
        ⟨"notjson2", some ("sha256=" ++ "aa"), none, none, none⟩).event.map
      (fun e => e.payload) = some (Json.obj []) :=
  spec_c4 "k" "notjson2" ⟨fun _ _ => "aa", fun _ _ => "bb"⟩ (fun _ => none)
    none none none (by decide) rfl

/-!
Embedding of `lib/analyze.js`.  The remote repository is abstracted as
the recursive tree listing (a list of entries) plus a fetch oracle
`String → Option String` standing for `safeGetFile` (which returns the
decoded file text, or `null` when the path is absent, is a directory, or
the fetch fails).  `JSON.parse` of `package.json`, the regular-expression
scans of the Dockerfile (`match` and `matchAll`), the test-directory
regex and the environment-variable extraction are oracle parameters; the
control flow and data flow around them follow the source.  JavaScript
strings are modelled at character granularity.
-/

/-- One entry of the recursive git tree listing
(`{ path, type, sha, url }`; only `path` and `type` matter here). -/
structure TreeItem where
  path : String
  type : String

/-- `b` is a prefix of the character list `a`. -/
def isPrefixCL : List Char → List Char → Bool
  | [], _ => true
  | _ :: _, [] => false
  | x :: xs, y :: ys => x == y && isPrefixCL xs ys

/-- `needle` occurs as a contiguous run inside `hay`. -/
def containsSub (needle : List Char) : List Char → Bool
  | [] => isPrefixCL needle []
  | c :: t => isPrefixCL needle (c :: t) || containsSub needle t

/-- JavaScript `a.includes(b)`: `b` occurs as a contiguous substring of
`a`. -/
def jsIncludes (s sub : String) : Bool :=
  containsSub sub.data s.data

/-- ASCII lowercasing of one character (the only case folding the
analysed needles require). -/
def lowerChar (c : Char) : Char :=
  if 65 ≤ c.toNat && c.toNat ≤ 90 then Char.ofNat (c.toNat + 32) else c

/-- JavaScript `s.toLowerCase()` at ASCII granularity. -/
def strToLower (s : String) : String :=
  ⟨s.data.map lowerChar⟩

/-- JavaScript `s.startsWith(pre)`. -/
def strStartsWith (s pre : String) : Bool :=
  isPrefixCL pre.data s.data

/-- Whitespace for JavaScript `trim`. -/
def isWsChar (c : Char) : Bool :=
  c == ' ' || c == '\t' || c == '\n' || c == '\r'

/-- JavaScript `s.trim()`. -/
def jsTrim (s : String) : String :=
  ⟨((s.data.dropWhile isWsChar).reverse.dropWhile isWsChar).reverse⟩

/-- The characters after the last occurrence of `sep` (the whole input
when `sep` does not occur): `split(sep).pop()`. -/
def lastComponentAux (sep : Char) (acc : List Char) : List Char → List Char
  | [] => acc
  | x :: xs => if x == sep then lastComponentAux sep [] xs else lastComponentAux sep (acc ++ [x]) xs

/-- `lib/analyze.js` line 5: `PATHS_OF_INTEREST`. -/
def pathsOfInterest : List String :=
  [ "package.json", "requirements.txt", "Pipfile", "pyproject.toml", "setup.py"
  , "go.mod", "Cargo.toml", "Gemfile", "composer.json"
  , "Dockerfile", "docker-compose.yml", ".env.example", ".env.sample"
  , "Makefile", "Procfile" ]

/-- `lib/analyze.js` line 12: `CI_PATH_PREFIX = '.github/workflows/'`. -/
def ciDir : String := ".github/workflows/"

/-- `lib/analyze.js` line 19: lowercased token after the final dot of a
path (`p.split('.').pop().toLowerCase()`), or the empty string when the
path has no dot. -/
def extOf (p : String) : String :=
  if p.data.contains ('.') then strToLower ⟨lastComponentAux ('.') [] p.data⟩ else ""

/-- `counts[ext] = (counts[ext] || 0) + 1` on an insertion-ordered
association list, as JavaScript object update does. -/
def bumpExt (counts : List (String × Nat)) (ext : String) : List (String × Nat) :=
  if counts.any (fun kv => kv.1 == ext) then
    counts.map (fun kv => if kv.1 == ext then (kv.1, kv.2 + 1) else kv)
  else counts ++ [(ext, 1)]

/-- `lib/analyze.js` lines 14–24: `extCountsFromTree` — count extensions
over `blob` entries, skipping entries without a dot or with an empty
final component. -/
def extCountsFromTree (tree : List TreeItem) : List (String × Nat) :=
  tree.foldl (fun counts i =>
    if i.type != ("blob") then counts
    else if extOf i.path == "" then counts
    else bumpExt counts (extOf i.path)) []

/-- `lib/analyze.js` lines 27–42: the fixed extension-to-language lookup
table. -/
def languageMap (ext : String) : Option String :=
  if ext == ("js") then some ("JavaScript")
  else if ext == ("ts") then some ("TypeScript")
  else if ext == ("py") then some ("Python")
  else if ext == ("java") then some ("Java")
  else if ext == ("go") then some ("Go")
  else if ext == ("rs") then some ("Rust")
  else if ext == ("rb") then some ("Ruby")
  else if ext == ("php") then some ("PHP")
  else if ext == ("cpp") then some ("C/C++")
  else if ext == ("c") then some ("C/C++")
  else if ext == ("cs") then some ("C#")
  else if ext == ("swift") then some ("Swift")
  else if ext == ("kt") then some ("Kotlin")
  else if ext == ("sh") then some ("Shell")
  else none

/-- `lib/analyze.js` line 43: `Object.entries(extCounts).sort((a,b) => b[1]-a[1])`.
JavaScript's sort is stable, as is insertion sort under this total
preorder, so entries of equal count keep their insertion order. -/
def rankedByCountDesc (extCounts : List (String × Nat)) : List (String × Nat) :=
  List.insertionSort (fun a b => b.2 ≤ a.2) extCounts

/-- `lib/analyze.js` lines 26–49: `detectPrimaryLanguages` — rank
extensions by descending count, map them through `languageMap`, skip
unmapped ones, and keep the first three results. -/
def detectPrimaryLanguages (extCounts : List (String × Nat)) : List String :=
  ((rankedByCountDesc extCounts).filterMap (fun p => languageMap p.1)).take 3

/-- `lib/analyze.js` lines 80–83: `shortSnippet` — truncate to `bound`
characters and append a truncation marker. -/
def shortSnippet (text : String) (bound : Nat) : String :=
  if text == "" then ""
  else if text.length > bound then text.take bound ++ "\n...[truncated]"
  else text

/-- `lib/analyze.js` line 114: the files-of-interest predicate —
well-known basename, CI workflow path, or a path whose lowercase form
contains "readme". -/
def interestCond (p : String) : Bool :=
  pathsOfInterest.contains p || strStartsWith p ciDir || jsIncludes (strToLower p) ("readme")

/-- `lib/analyze.js` lines 110–117: first collection pass over the tree. -/
def filesFoundBase (tree : List TreeItem) : List String :=
  tree.foldl (fun acc i =>
    if i.type == ("blob") && interestCond i.path then acc ++ [i.path] else acc) []

/-- `lib/analyze.js` lines 127–131: the second pass re-adding CI workflow
blobs not already collected (a no-op given the first pass, but kept
faithful to the source). -/
def filesFoundOf (tree : List TreeItem) : List String :=
  tree.foldl (fun acc i =>
    if i.type == ("blob") && strStartsWith i.path ciDir && !(acc.contains i.path)
    then acc ++ [i.path] else acc) (filesFoundBase tree)

/-- `lib/analyze.js` lines 122–125: the hard-coded priority list prepended
to the fetch list. -/
def priorityPaths : List String :=
  [ "package.json", "pyproject.toml", "setup.py", "requirements.txt", "Pipfile"
  , "Dockerfile", "docker-compose.yml", ".env.example", ".env.sample", "Makefile" ]

/-- `.filter((v, i, a) => a.indexOf(v) === i)`: keep each element's first
occurrence, in order.  The accumulator is the set of already-seen
elements. -/
def dedupFirstAux : List String → List String → List String
  | _, [] => []
  | seen, x :: xs =>
    if seen.contains x then dedupFirstAux seen xs
    else x :: dedupFirstAux (seen ++ [x]) xs

def dedupFirst (l : List String) : List String := dedupFirstAux [] l

/-- `lib/analyze.js` line 134: `toFetch` — priority paths first, then the
files of interest not already in the priority list, deduplicated keeping
first occurrences. -/
def toFetch (tree : List TreeItem) : List String :=
  dedupFirst (priorityPaths ++ (filesFoundOf tree).filter (fun p => !(priorityPaths.contains p)))

/-- `lib/analyze.js` line 136: `toFetch.slice(0, 40)` — the paths for
which a file-content fetch is attempted. -/
def fetchAttempts (tree : List TreeItem) : List String :=
  (toFetch tree).take 40

/-- `lib/analyze.js` lines 136–139: the fetch loop — one `safeGetFile`
per attempted path; only truthy results are stored, as the 2000-bounded
snippet, keyed by path (insertion order preserved). -/
def fileContentsOf (tree : List TreeItem) (fetch : String → Option String) :
    List (String × String) :=
  (fetchAttempts tree).filterMap (fun p =>
    match fetch p with
    | some txt => if txt != "" then some (p, shortSnippet txt 2000) else none
    | none => none)

/-- `dockerInfo` — `{ cmd, entrypoint, exposedPorts }`. -/
structure DockerInfo where
  cmd : Option String
  entrypoint : Option String
  exposedPorts : List String
deriving DecidableEq

/-- `lib/analyze.js` lines 148–163: the `analysis.detected` record. -/
structure Detected where
  projectType : Option String
  entrypoint : Option String
  runCommands : List String
  testCommands : List String
  packageManager : Option String
  envVars : List String
  hasDocker : Bool
  dockerInfo : Option DockerInfo
  hasCI : Bool
  ciFiles : List String
  hasTests : Bool
  readme : Option String
  license : Option String
  assumptions : List String
deriving DecidableEq

/-- The all-null/false/empty initial value of `analysis.detected`. -/
def initDetected : Detected :=
  { projectType := none, entrypoint := none, runCommands := [], testCommands := []
  , packageManager := none, envVars := [], hasDocker := false, dockerInfo := none
  , hasCI := false, ciFiles := [], hasTests := false, readme := none, license := none
  , assumptions := [] }

/-- The fields of a parsed `package.json` that the pipeline reads:
`scripts` (an object of script name/command pairs), `main`, `name`. -/
structure PackageJson where
  scripts : Option (List (String × String))
  main : Option String
  name : Option String

/-- External primitives of the pipeline as oracles: `JSON.parse` of
package.json text; all captures, in order of occurrence, of the
Dockerfile regexes `/CMD\s+(.*)/ig`, `/ENTRYPOINT\s+(.*)/ig` and
`/EXPOSE\s+([0-9]+)/ig` (the source's non-global `match` takes the first
of these, its `matchAll` takes them all); the test-directory regex
`/(^|\/)(__tests__|tests|test)($|\/)/i`; and `extractEnvVarsFromText`. -/
structure AnalyzeOracles where
  parsePackageJson : String → Option PackageJson
  cmdMatches : String → List String
  entrypointMatches : String → List String
  exposeMatches : String → List String
  isTestPath : String → Bool
  extractEnvVars : String → List String

/-- `fileContents[path]` — association-list lookup by path. -/
def lookupFC (fc : List (String × String)) (p : String) : Option String :=
  fc.lookup p

/-- `pm && pm.includes(sub)` on the possibly-null `packageManager`. -/
def pmIncludes (pm : Option String) (sub : String) : Bool :=
  match pm with
  | some s => s != "" && jsIncludes s sub
  | none => false

/-- `lib/analyze.js` line 171: `packageManager = 'npm|yarn'`. -/
def pjSetManager (d : Detected) : Detected :=
  { d with packageManager := some ("npm|yarn") }

/-- `lib/analyze.js` lines 172–174: append `Object.values(pj.scripts)`
(or nothing when `scripts` is absent) to `runCommands`. -/
def pjAddRunCommands (d : Detected) (pj : PackageJson) : Detected :=
  { d with runCommands := d.runCommands ++
      (match pj.scripts with
       | some scr => scr.map (fun kv => kv.2)
       | none => []) }

/-- `lib/analyze.js` line 175: `if (pj.scripts && pj.scripts.start)
entrypoint = pj.scripts.start`. -/
def pjSetStart (d : Detected) (pj : PackageJson) : Detected :=
  match pj.scripts with
  | some scr =>
    match scr.lookup ("start") with
    | some st => if st != "" then { d with entrypoint := some st } else d
    | none => d
  | none => d

/-- `lib/analyze.js` lines 176–179: a truthy `pj.scripts.test` is pushed
onto `testCommands` and sets `hasTests`. -/
def pjSetTest (d : Detected) (pj : PackageJson) : Detected :=
  match pj.scripts with
  | some scr =>
    match scr.lookup ("test") with
    | some tst =>
      if tst != "" then { d with testCommands := d.testCommands ++ [tst], hasTests := true }
      else d
    | none => d
  | none => d

/-- `lib/analyze.js` line 180: `if (pj.main) entrypoint = entrypoint || node main`. -/
def pjSetMain (d : Detected) (pj : PackageJson) : Detected :=
  match pj.main with
  | some mn =>
    if mn != "" then { d with entrypoint := jsOrOpt d.entrypoint ("node " ++ mn) } else d
  | none => d

/-- `lib/analyze.js` line 181: `if (pj.name) projectType = projectType || 'node-project'`. -/
def pjSetName (d : Detected) (pj : PackageJson) : Detected :=
  match pj.name with
  | some nm =>
    if nm != "" then { d with projectType := jsOrOpt d.projectType ("node-project") } else d
  | none => d

/-- `lib/analyze.js` lines 168–185: the package.json stage — runs only on
a truthy fetched snippet whose parse succeeds (a parse failure is caught
and ignored). -/
def applyPackageJsonStage (d : Detected) (fc : List (String × String))
    (oracles : AnalyzeOracles) : Detected :=
  match lookupFC fc ("package.json") with
  | some s =>
    if s != "" then
      match oracles.parsePackageJson s with
      | some pj => pjSetName (pjSetMain (pjSetTest (pjSetStart (pjAddRunCommands (pjSetManager d) pj) pj) pj) pj) pj
      | none => d
    else d
  | none => d

/-- `lib/analyze.js` lines 191–194: the `[tool.pytest]` check on a truthy
`pyproject.toml` snippet. -/
def pyPytestCheck (d : Detected) (fc : List (String × String)) : Detected :=
  match lookupFC fc ("pyproject.toml") with
  | some s =>
    if s != "" && jsIncludes s ("[tool.pytest]") then
      { d with hasTests := true, testCommands := d.testCommands ++ [("pytest")] }
    else d
  | none => d

/-- `lib/analyze.js` line 198: `projectType = projectType || 'python-project'`. -/
def applyPythonTail (d : Detected) : Detected :=
  { d with projectType := jsOrOpt d.projectType ("python-project") }

/-- `lib/analyze.js` lines 188–199: the python stage. -/
def applyPythonStage (d : Detected) (fc : List (String × String)) : Detected :=
  if jsTruthy (lookupFC fc ("requirements.txt")) || jsTruthy (lookupFC fc ("pyproject.toml"))
      || jsTruthy (lookupFC fc ("Pipfile")) || jsTruthy (lookupFC fc ("setup.py")) then
    applyPythonTail (pyPytestCheck
      { d with packageManager := jsOrOpt d.packageManager ("pip/poetry/pipenv") } fc)
  else d

/-- `lib/analyze.js` lines 204–213: build `dock` from the Dockerfile
snippet.  `df.match(/CMD\s+(.*)/i)` without the global flag yields the
first occurrence, hence `head?` of the in-order capture list; `matchAll`
yields all `EXPOSE` captures in order. -/
def dockerInfoOf (fc : List (String × String)) (oracles : AnalyzeOracles) : DockerInfo :=
  match lookupFC fc ("Dockerfile") with
  | some df =>
    if df != "" then
      { cmd := ((oracles.cmdMatches df).head?).map jsTrim
      , entrypoint := ((oracles.entrypointMatches df).head?).map jsTrim
      , exposedPorts := oracles.exposeMatches df }
    else { cmd := none, entrypoint := none, exposedPorts := [] }
  | none => { cmd := none, entrypoint := none, exposedPorts := [] }

/-- `lib/analyze.js` lines 215–216: fill a falsy `entrypoint` from
`dock.cmd`, then `projectType = projectType || 'dockerized-app'`. -/
def applyDockerTail (d : Detected) (dock : DockerInfo) : Detected :=
  if !(jsTruthy d.entrypoint) && jsTruthy dock.cmd then
    { d with entrypoint := dock.cmd, projectType := jsOrOpt d.projectType ("dockerized-app") }
  else
    { d with projectType := jsOrOpt d.projectType ("dockerized-app") }

/-- `lib/analyze.js` lines 202–217: the Dockerfile stage, entered when
either container descriptor snippet is truthy. -/
def applyDockerStage (d : Detected) (fc : List (String × String))
    (oracles : AnalyzeOracles) : Detected :=
  if jsTruthy (lookupFC fc ("Dockerfile")) || jsTruthy (lookupFC fc ("docker-compose.yml")) then
    applyDockerTail { d with hasDocker := true, dockerInfo := some (dockerInfoOf fc oracles) }
      (dockerInfoOf fc oracles)
  else d

/-- `lib/analyze.js` lines 220–224: the CI stage — fetched snippet keys
under the workflow directory. -/
def applyCIStage (d : Detected) (fc : List (String × String)) : Detected :=
  if ((fc.map (fun kv => kv.1)).filter (fun p => strStartsWith p ciDir)).length != 0 then
    { d with hasCI := true
           , ciFiles := (fc.map (fun kv => kv.1)).filter (fun p => strStartsWith p ciDir) }
  else d

/-- `lib/analyze.js` lines 227–228: the first fetched-snippet key matching
`/readme/i` populates `readme` with the 1500-bounded snippet. -/
def applyReadmeStage (d : Detected) (fc : List (String × String)) : Detected :=
  match fc.find? (fun kv => jsIncludes (strToLower kv.1) ("readme")) with
  | some kv => if kv.1 != "" then { d with readme := some (shortSnippet kv.2 1500) } else d
  | none => d

/-- `lib/analyze.js` lines 229–230: the first fetched-snippet key matching
`/license/i` populates `license` with the path only. -/
def applyLicenseStage (d : Detected) (fc : List (String × String)) : Detected :=
  match fc.find? (fun kv => jsIncludes (strToLower kv.1) ("license")) with
  | some kv => if kv.1 != "" then { d with license := some kv.1 } else d
  | none => d

/-- `lib/analyze.js` lines 233–239: when no test signal was found, a scan
of the whole tree for conventional test-directory names sets `hasTests`
and appends one generic command chosen by the package manager. -/
def applyGenericTestsStage (d : Detected) (tree : List TreeItem)
    (oracles : AnalyzeOracles) : Detected :=
  if !d.hasTests then
    if tree.any (fun t => oracles.isTestPath t.path) then
      { d with hasTests := true
             , testCommands := d.testCommands ++
                 [if pmIncludes d.packageManager ("npm") then ("npm test") else ("pytest")] }
    else d
  else d

/-- `lib/analyze.js` lines 242–244: env-var extraction over the
concatenation of all fetched snippets, unioned into `envVars` keeping
first occurrences (`Array.from(new Set(...))`). -/
def applyEnvStage (d : Detected) (fc : List (String × String))
    (oracles : AnalyzeOracles) : Detected :=
  { d with envVars := dedupFirst (d.envVars ++
      oracles.extractEnvVars (String.intercalate ("\n\n") (fc.map (fun kv => kv.2)))) }

/-- `lib/analyze.js` lines 247–257: exactly one fallback run command when
none was collected. -/
def applyFallbackRunStage (d : Detected) : Detected :=
  if d.runCommands.length == 0 then
    if pmIncludes d.packageManager ("npm") then
      { d with runCommands := d.runCommands ++ [("npm install && npm start")] }
    else if pmIncludes d.packageManager ("pip") then
      { d with runCommands := d.runCommands ++ [("pip install -r requirements.txt && python main.py")] }
    else if d.hasDocker then
      { d with runCommands := d.runCommands ++ [("docker build -t myapp . && docker run -p 3000:3000 myapp")] }
    else
      { d with runCommands := d.runCommands ++ [("Check project files for run instructions")] }
  else d

/-- `lib/analyze.js` line 260: advisory assumption when `entrypoint` is
still falsy. -/
def applyEntryAssumption (d : Detected) : Detected :=
  if !(jsTruthy d.entrypoint) then
    { d with assumptions := d.assumptions ++
        [("Entry point not obvious — assumed from package files or Dockerfile.")] }
  else d

/-- `lib/analyze.js` line 261: advisory assumption when no env vars were
detected. -/
def applyEnvAssumption (d : Detected) : Detected :=
  if d.envVars.length == 0 then
    { d with assumptions := d.assumptions ++
        [("No ENV vars detected by static scan — there may still be runtime envs.")] }
  else d

/-- `lib/analyze.js` lines 259–261. -/
def applyAssumptionsStage (d : Detected) : Detected :=
  applyEnvAssumption (applyEntryAssumption d)

/-- `lib/analyze.js` lines 141–261: the classification stages applied in
source order to the initial `detected` record. -/
def detectedOf (tree : List TreeItem) (fc : List (String × String))
    (oracles : AnalyzeOracles) : Detected :=
  applyAssumptionsStage (applyFallbackRunStage (applyEnvStage
    (applyGenericTestsStage (applyLicenseStage (applyReadmeStage (applyCIStage
      (applyDockerStage (applyPythonStage (applyPackageJsonStage initDetected fc oracles) fc)
        fc oracles) fc) fc) fc) tree oracles) fc oracles))

/-- The `analysis` value returned by `analyzeRepo`. -/
structure Analysis where
  repo : String
  ref : String
  primaryLanguages : List String
  extCounts : List (String × Nat)
  filesFound : List String
  detected : Detected
  snippets : List (String × String)

/-- `lib/analyze.js` lines 96–264: `analyzeRepo`, with the remote tree
and the per-file fetch given as inputs (stage A, the three sequential
tree-resolution calls, is the collaborator boundary). -/
def analyzeRepo (owner repo ref : String) (tree : List TreeItem)
    (fetch : String → Option String) (oracles : AnalyzeOracles) : Analysis :=
  { repo := owner ++ ("/") ++ repo
  , ref := ref
  , primaryLanguages := detectPrimaryLanguages (extCountsFromTree tree)
  , extCounts := extCountsFromTree tree
  , filesFound := filesFoundOf tree
  , detected := detectedOf tree (fileContentsOf tree fetch) oracles
  , snippets := fileContentsOf tree fetch }

/-- C6 counterexample: the code never deduplicates emitted labels — both
"cpp" and "c" map to "C/C++", so counts {cpp: 1, c: 1} make
`detectPrimaryLanguages` return ["C/C++", "C/C++"], a list that is not
made of distinct labels; the claim's "at most 3 distinct language
labels" is false at this input. -/
theorem spec_c6_counterexample :
    detectPrimaryLanguages [(("cpp"), 1), (("c"), 1)] = [("C/C++"), ("C/C++")] ∧
    ¬ ([("C/C++"), ("C/C++")] : List String).Nodup := by
  exact ⟨by decide, by decide⟩

/-- C6 (amended): `detectPrimaryLanguages` emits at most 3 labels — not
necessarily distinct, since several extensions can map to the same
label; the ranked list it draws from is sorted by descending count (the
sort is stable, so ties keep insertion order); every emitted label is
the lookup-table image of an extension present in the input counts
(unmapped extensions are skipped entirely and never occupy a slot); and
on the counts {js: 5, ts: 3, unknownext: 10} — where the unmapped
extension dominates numerically — the result is exactly
["JavaScript", "TypeScript"] in descending-count order. -/
theorem spec_c6 (ec : List (String × Nat)) :
    (detectPrimaryLanguages ec).length ≤ 3 ∧
    List.Sorted (fun a b : String × Nat => b.2 ≤ a.2) (rankedByCountDesc ec) ∧
    (∀ l ∈ detectPrimaryLanguages ec, ∃ p ∈ ec, languageMap p.1 = some l) ∧
    detectPrimaryLanguages [(("js"), 5), (("ts"), 3), (("unknownext"), 10)] =
      [("JavaScript"), ("TypeScript")] := by
  refine ⟨?_, ?_, ?_, by decide⟩
  · unfold detectPrimaryLanguages
    rw [List.length_take]
    exact Nat.min_le_left _ _
  · haveI : IsTotal (String × Nat) (fun a b => b.2 ≤ a.2) :=
      ⟨fun a b => Nat.le_total b.2 a.2⟩
    haveI : IsTrans (String × Nat) (fun a b => b.2 ≤ a.2) :=
      ⟨fun a b c hab hbc => Nat.le_trans hbc hab⟩
    unfold rankedByCountDesc
    exact List.sorted_insertionSort _ _
  · intro l hl
    unfold detectPrimaryLanguages at hl
    have hl2 := (List.take_sublist 3 _).mem hl
    rcases List.mem_filterMap.mp hl2 with ⟨p, hp, hmap⟩
    refine ⟨p, ?_, hmap⟩
    unfold rankedByCountDesc at hp
    exact (List.perm_insertionSort (fun a b => b.2 ≤ a.2) ec).mem_iff.mp hp

/-- Closed witness for `spec_c6` at a concrete count list. -/
theorem spec_c6_witness :
    (detectPrimaryLanguages [(("js"), 5), (("ts"), 3), (("unknownext"), 10)]).length ≤ 3 :=
  (spec_c6 [(("js"), 5), (("ts"), 3), (("unknownext"), 10)]).1

/-- C9: the bounded-fetch stage attempts at most 40 file-content
fetches, whatever the tree contains. -/
theorem spec_c9 (tree : List TreeItem) : (fetchAttempts tree).length ≤ 40 := by
  unfold fetchAttempts
  rw [List.length_take]
  exact Nat.min_le_left _ _

/-- Deduplication of `l ++ r` when `l` has no duplicates and nothing in
`l` was seen yet: `l` survives as a prefix. -/
theorem dedupFirstAux_append (l : List String) (r seen : List String) (hnd : l.Nodup)
    (hseen : ∀ x ∈ l, x ∉ seen) :
    dedupFirstAux seen (l ++ r) = l ++ dedupFirstAux (seen ++ l) r := by
  induction l generalizing seen with
  | nil => simp [dedupFirstAux]
  | cons x xs ih =>
    have hxs : x ∉ seen := hseen x (by simp)
    have hx : seen.contains x = false := by simp [hxs]
    have harg : ∀ y ∈ xs, y ∉ seen ++ [x] := by
      intro y hy
      simp only [List.mem_append, List.mem_singleton]
      rintro (hys | rfl)
      · exact hseen y (by simp [hy]) hys
      · exact (List.nodup_cons.mp hnd).1 hy
    simp only [List.cons_append, dedupFirstAux, hx, Bool.false_eq_true, if_false,
      List.append_eq]
    rw [ih (seen ++ [x]) hnd.of_cons harg]
    simp

/-- The fetch list is the ten priority paths followed by the deduplicated
novel files of interest. -/
theorem toFetch_eq (tree : List TreeItem) :
    toFetch tree = priorityPaths ++
      dedupFirstAux priorityPaths
        ((filesFoundOf tree).filter (fun p => !(priorityPaths.contains p))) := by
  unfold toFetch dedupFirst
  rw [dedupFirstAux_append _ _ _ (by decide) (fun x _ hx => by cases hx)]
  simp

/-- The attempted fetches start with the ten priority paths. -/
theorem fetchAttempts_eq (tree : List TreeItem) :
    fetchAttempts tree = priorityPaths ++
      (dedupFirstAux priorityPaths
        ((filesFoundOf tree).filter (fun p => !(priorityPaths.contains p)))).take 30 := by
  have h30 : (40 : Nat) - priorityPaths.length = 30 := by decide
  unfold fetchAttempts
  rw [toFetch_eq, List.take_append_eq_append_take, List.take_of_length_le (by decide), h30]

/-- C10: whatever the tree contains — including nothing at all — a
file-content fetch is attempted for every one of the ten hardcoded
priority basenames, because the priority list is prepended to the fetch
list unconditionally; and every path whose fetch returns `null` is
absent from the collected snippet map. -/
theorem spec_c10 (tree : List TreeItem) (fetch : String → Option String) :
    (∀ p ∈ priorityPaths, p ∈ fetchAttempts tree) ∧
    (∀ p, fetch p = none → lookupFC (fileContentsOf tree fetch) p = none) := by
  constructor
  · intro p hp
    rw [fetchAttempts_eq]
    exact List.mem_append_left _ hp
  · intro p hp
    unfold lookupFC fileContentsOf
    generalize fetchAttempts tree = l
    induction l with
    | nil => rfl
    | cons q t ih =>
      simp only [List.filterMap_cons]
      cases hq : fetch q with
      | none => simpa using ih
      | some txt =>
        have hpq : (p == q) = false := by
          simp only [beq_eq_false_iff_ne]
          intro he
          rw [he, hq] at hp
          cases hp
        by_cases ht : (txt != "") = true
        · simp only [ht, if_true, List.lookup, hpq]
          exact ih
        · simp only [ht, if_false, Bool.false_eq_true]
          exact ih

@[simp] theorem pjSetMain_hasTests (d : Detected) (pj : PackageJson) :
    (pjSetMain d pj).hasTests = d.hasTests := by
  unfold pjSetMain
  repeat' split
  all_goals rfl

@[simp] theorem pjSetMain_testCommands (d : Detected) (pj : PackageJson) :
    (pjSetMain d pj).testCommands = d.testCommands := by
  unfold pjSetMain
  repeat' split
  all_goals rfl

theorem pjSetMain_entrypoint_truthy (d : Detected) (pj : PackageJson)
    (h : jsTruthy d.entrypoint = true) : (pjSetMain d pj).entrypoint = d.entrypoint := by
  unfold pjSetMain jsOrOpt
  repeat' split
  all_goals simp_all

@[simp] theorem pjSetName_entrypoint (d : Detected) (pj : PackageJson) :
    (pjSetName d pj).entrypoint = d.entrypoint := by
  unfold pjSetName
  repeat' split
  all_goals rfl

@[simp] theorem pjSetName_hasTests (d : Detected) (pj : PackageJson) :
    (pjSetName d pj).hasTests = d.hasTests := by
  unfold pjSetName
  repeat' split
  all_goals rfl

@[simp] theorem pjSetName_testCommands (d : Detected) (pj : PackageJson) :
    (pjSetName d pj).testCommands = d.testCommands := by
  unfold pjSetName
  repeat' split
  all_goals rfl

/-- The package.json stage under a truthy snippet, a successful parse and
truthy declared start and test scripts: the entrypoint is the start
script, `hasTests` is set, and the test script is recorded. -/
theorem pjStage_spec (d : Detected) (fc : List (String × String)) (oracles : AnalyzeOracles)
    (s : String) (pj : PackageJson) (scr : List (String × String)) (st tst : String)
    (h1 : lookupFC fc ("package.json") = some s) (h2 : s ≠ "")
    (h3 : oracles.parsePackageJson s = some pj) (h4 : pj.scripts = some scr)
    (h5 : scr.lookup ("start") = some st) (h6 : st ≠ "")
    (h7 : scr.lookup ("test") = some tst) (h8 : tst ≠ "") :
    (applyPackageJsonStage d fc oracles).entrypoint = some st ∧
    (applyPackageJsonStage d fc oracles).hasTests = true ∧
    tst ∈ (applyPackageJsonStage d fc oracles).testCommands := by
  have hb2 : (s != "") = true := by simp [h2]
  have hb6 : (st != "") = true := by simp [h6]
  have hb8 : (tst != "") = true := by simp [h8]
  unfold applyPackageJsonStage pjSetStart pjSetTest
  simp only [h1, h3, h4, h5, h7, hb2, hb6, hb8, if_true]
  refine ⟨?_, ?_, ?_⟩
  · rw [pjSetName_entrypoint, pjSetMain_entrypoint_truthy]
    all_goals first | rfl | simp [jsTruthy, h6]
  · rw [pjSetName_hasTests, pjSetMain_hasTests]
  · rw [pjSetName_testCommands, pjSetMain_testCommands]
    simp

@[simp] theorem pythonStage_entrypoint (d : Detected) (fc : List (String × String)) :
    (applyPythonStage d fc).entrypoint = d.entrypoint := by
  unfold applyPythonStage applyPythonTail pyPytestCheck
  repeat' split
  all_goals rfl

@[simp] theorem pythonStage_readme (d : Detected) (fc : List (String × String)) :
    (applyPythonStage d fc).readme = d.readme := by
  unfold applyPythonStage applyPythonTail pyPytestCheck
  repeat' split
  all_goals rfl

@[simp] theorem pythonStage_license (d : Detected) (fc : List (String × String)) :
    (applyPythonStage d fc).license = d.license := by
  unfold applyPythonStage applyPythonTail pyPytestCheck
  repeat' split
  all_goals rfl

@[simp] theorem pythonStage_dockerInfo (d : Detected) (fc : List (String × String)) :
    (applyPythonStage d fc).dockerInfo = d.dockerInfo := by
  unfold applyPythonStage applyPythonTail pyPytestCheck
  repeat' split
  all_goals rfl

@[simp] theorem pythonStage_hasDocker (d : Detected) (fc : List (String × String)) :
    (applyPythonStage d fc).hasDocker = d.hasDocker := by
  unfold applyPythonStage applyPythonTail pyPytestCheck
  repeat' split
  all_goals rfl

theorem pythonStage_hasTests_true (d : Detected) (fc : List (String × String))
    (h : d.hasTests = true) : (applyPythonStage d fc).hasTests = true := by
  unfold applyPythonStage applyPythonTail pyPytestCheck
  repeat' split
  all_goals simp_all

theorem pythonStage_testCommands_mem (d : Detected) (fc : List (String × String))
    (x : String) (h : x ∈ d.testCommands) : x ∈ (applyPythonStage d fc).testCommands := by
  unfold applyPythonStage applyPythonTail pyPytestCheck
  repeat' split
  all_goals simp_all

@[simp] theorem dockerStage_hasTests (d : Detected) (fc : List (String × String))
    (oracles : AnalyzeOracles) : (applyDockerStage d fc oracles).hasTests = d.hasTests := by
  unfold applyDockerStage applyDockerTail
  repeat' split
  all_goals rfl

@[simp] theorem dockerStage_testCommands (d : Detected) (fc : List (String × String))
    (oracles : AnalyzeOracles) : (applyDockerStage d fc oracles).testCommands = d.testCommands := by
  unfold applyDockerStage applyDockerTail
  repeat' split
  all_goals rfl

@[simp] theorem dockerStage_readme (d : Detected) (fc : List (String × String))
    (oracles : AnalyzeOracles) : (applyDockerStage d fc oracles).readme = d.readme := by
  unfold applyDockerStage applyDockerTail
  repeat' split
  all_goals rfl

@[simp] theorem dockerStage_license (d : Detected) (fc : List (String × String))
    (oracles : AnalyzeOracles) : (applyDockerStage d fc oracles).license = d.license := by
  unfold applyDockerStage applyDockerTail
  repeat' split
  all_goals rfl

theorem dockerStage_entrypoint_truthy (d : Detected) (fc : List (String × String))
    (oracles : AnalyzeOracles) (h : jsTruthy d.entrypoint = true) :
    (applyDockerStage d fc oracles).entrypoint = d.entrypoint := by
  unfold applyDockerStage applyDockerTail
  repeat' split
  all_goals simp_all

@[simp] theorem ciStage_entrypoint (d : Detected) (fc : List (String × String)) :
    (applyCIStage d fc).entrypoint = d.entrypoint := by
  unfold applyCIStage
  repeat' split
  all_goals rfl

@[simp] theorem ciStage_hasTests (d : Detected) (fc : List (String × String)) :
    (applyCIStage d fc).hasTests = d.hasTests := by
  unfold applyCIStage
  repeat' split
  all_goals rfl

@[simp] theorem ciStage_testCommands (d : Detected) (fc : List (String × String)) :
    (applyCIStage d fc).testCommands = d.testCommands := by
  unfold applyCIStage
  repeat' split
  all_goals rfl

@[simp] theorem ciStage_readme (d : Detected) (fc : List (String × String)) :
    (applyCIStage d fc).readme = d.readme := by
  unfold applyCIStage
  repeat' split
  all_goals rfl

@[simp] theorem ciStage_license (d : Detected) (fc : List (String × String)) :
    (applyCIStage d fc).license = d.license := by
  unfold applyCIStage
  repeat' split
  all_goals rfl

@[simp] theorem ciStage_dockerInfo (d : Detected) (fc : List (String × String)) :
    (applyCIStage d fc).dockerInfo = d.dockerInfo := by
  unfold applyCIStage
  repeat' split
  all_goals rfl

@[simp] theorem ciStage_hasDocker (d : Detected) (fc : List (String × String)) :
    (applyCIStage d fc).hasDocker = d.hasDocker := by
  unfold applyCIStage
  repeat' split
  all_goals rfl

@[simp] theorem readmeStage_entrypoint (d : Detected) (fc : List (String × String)) :
    (applyReadmeStage d fc).entrypoint = d.entrypoint := by
  unfold applyReadmeStage
  repeat' split
  all_goals rfl

@[simp] theorem readmeStage_hasTests (d : Detected) (fc : List (String × String)) :
    (applyReadmeStage d fc).hasTests = d.hasTests := by
  unfold applyReadmeStage
  repeat' split
  all_goals rfl

@[simp] theorem readmeStage_testCommands (d : Detected) (fc : List (String × String)) :
    (applyReadmeStage d fc).testCommands = d.testCommands := by
  unfold applyReadmeStage
  repeat' split
  all_goals rfl

@[simp] theorem readmeStage_license (d : Detected) (fc : List (String × String)) :
    (applyReadmeStage d fc).license = d.license := by
  unfold applyReadmeStage
  repeat' split
  all_goals rfl

@[simp] theorem readmeStage_dockerInfo (d : Detected) (fc : List (String × String)) :
    (applyReadmeStage d fc).dockerInfo = d.dockerInfo := by
  unfold applyReadmeStage
  repeat' split
  all_goals rfl

@[simp] theorem readmeStage_hasDocker (d : Detected) (fc : List (String × String)) :
    (applyReadmeStage d fc).hasDocker = d.hasDocker := by
  unfold applyReadmeStage
  repeat' split
  all_goals rfl

@[simp] theorem licenseStage_entrypoint (d : Detected) (fc : List (String × String)) :
    (applyLicenseStage d fc).entrypoint = d.entrypoint := by
  unfold applyLicenseStage
  repeat' split
  all_goals rfl

@[simp] theorem licenseStage_hasTests (d : Detected) (fc : List (String × String)) :
    (applyLicenseStage d fc).hasTests = d.hasTests := by
  unfold applyLicenseStage
  repeat' split
  all_goals rfl

@[simp] theorem licenseStage_testCommands (d : Detected) (fc : List (String × String)) :
    (applyLicenseStage d fc).testCommands = d.testCommands := by
  unfold applyLicenseStage
  repeat' split
  all_goals rfl

@[simp] theorem licenseStage_readme (d : Detected) (fc : List (String × String)) :
    (applyLicenseStage d fc).readme = d.readme := by
  unfold applyLicenseStage
  repeat' split
  all_goals rfl

@[simp] theorem licenseStage_dockerInfo (d : Detected) (fc : List (String × String)) :
    (applyLicenseStage d fc).dockerInfo = d.dockerInfo := by
  unfold applyLicenseStage
  repeat' split
  all_goals rfl

@[simp] theorem licenseStage_hasDocker (d : Detected) (fc : List (String × String)) :
    (applyLicenseStage d fc).hasDocker = d.hasDocker := by
  unfold applyLicenseStage
  repeat' split
  all_goals rfl

@[simp] theorem genericTestsStage_entrypoint (d : Detected) (tree : List TreeItem)
    (oracles : AnalyzeOracles) : (applyGenericTestsStage d tree oracles).entrypoint = d.entrypoint := by
  unfold applyGenericTestsStage
  repeat' split
  all_goals rfl

@[simp] theorem genericTestsStage_readme (d : Detected) (tree : List TreeItem)
    (oracles : AnalyzeOracles) : (applyGenericTestsStage d tree oracles).readme = d.readme := by
  unfold applyGenericTestsStage
  repeat' split
  all_goals rfl

@[simp] theorem genericTestsStage_license (d : Detected) (tree : List TreeItem)
    (oracles : AnalyzeOracles) : (applyGenericTestsStage d tree oracles).license = d.license := by
  unfold applyGenericTestsStage
  repeat' split
  all_goals rfl

@[simp] theorem genericTestsStage_dockerInfo (d : Detected) (tree : List TreeItem)
    (oracles : AnalyzeOracles) : (applyGenericTestsStage d tree oracles).dockerInfo = d.dockerInfo := by
  unfold applyGenericTestsStage
  repeat' split
  all_goals rfl

@[simp] theorem genericTestsStage_hasDocker (d : Detected) (tree : List TreeItem)
    (oracles : AnalyzeOracles) : (applyGenericTestsStage d tree oracles).hasDocker = d.hasDocker := by
  unfold applyGenericTestsStage
  repeat' split
  all_goals rfl

theorem genericTestsStage_hasTests_true (d : Detected) (tree : List TreeItem)
    (oracles : AnalyzeOracles) (h : d.hasTests = true) :
    (applyGenericTestsStage d tree oracles).hasTests = true := by
  unfold applyGenericTestsStage
  repeat' split
  all_goals simp_all

theorem genericTestsStage_testCommands_mem (d : Detected) (tree : List TreeItem)
    (oracles : AnalyzeOracles) (x : String) (h : x ∈ d.testCommands) :
    x ∈ (applyGenericTestsStage d tree oracles).testCommands := by
  unfold applyGenericTestsStage
  repeat' split
  all_goals simp_all

@[simp] theorem envStage_entrypoint (d : Detected) (fc : List (String × String))
    (oracles : AnalyzeOracles) : (applyEnvStage d fc oracles).entrypoint = d.entrypoint := rfl

@[simp] theorem envStage_hasTests (d : Detected) (fc : List (String × String))
    (oracles : AnalyzeOracles) : (applyEnvStage d fc oracles).hasTests = d.hasTests := rfl

@[simp] theorem envStage_testCommands (d : Detected) (fc : List (String × String))
    (oracles : AnalyzeOracles) : (applyEnvStage d fc oracles).testCommands = d.testCommands := rfl

@[simp] theorem envStage_readme (d : Detected) (fc : List (String × String))
    (oracles : AnalyzeOracles) : (applyEnvStage d fc oracles).readme = d.readme := rfl

@[simp] theorem envStage_license (d : Detected) (fc : List (String × String))
    (oracles : AnalyzeOracles) : (applyEnvStage d fc oracles).license = d.license := rfl

@[simp] theorem envStage_dockerInfo (d : Detected) (fc : List (String × String))
    (oracles : AnalyzeOracles) : (applyEnvStage d fc oracles).dockerInfo = d.dockerInfo := rfl

@[simp] theorem envStage_hasDocker (d : Detected) (fc : List (String × String))
    (oracles : AnalyzeOracles) : (applyEnvStage d fc oracles).hasDocker = d.hasDocker := rfl

@[simp] theorem fallbackRunStage_entrypoint (d : Detected) :
    (applyFallbackRunStage d).entrypoint = d.entrypoint := by
  unfold applyFallbackRunStage
  repeat' split
  all_goals rfl

@[simp] theorem fallbackRunStage_hasTests (d : Detected) :
    (applyFallbackRunStage d).hasTests = d.hasTests := by
  unfold applyFallbackRunStage
  repeat' split
  all_goals rfl

@[simp] theorem fallbackRunStage_testCommands (d : Detected) :
    (applyFallbackRunStage d).testCommands = d.testCommands := by
  unfold applyFallbackRunStage
  repeat' split
  all_goals rfl

@[simp] theorem fallbackRunStage_readme (d : Detected) :
    (applyFallbackRunStage d).readme = d.readme := by
  unfold applyFallbackRunStage
  repeat' split
  all_goals rfl

@[simp] theorem fallbackRunStage_license (d : Detected) :
    (applyFallbackRunStage d).license = d.license := by
  unfold applyFallbackRunStage
  repeat' split
  all_goals rfl

@[simp] theorem fallbackRunStage_dockerInfo (d : Detected) :
    (applyFallbackRunStage d).dockerInfo = d.dockerInfo := by
  unfold applyFallbackRunStage
  repeat' split
  all_goals rfl

@[simp] theorem fallbackRunStage_hasDocker (d : Detected) :
    (applyFallbackRunStage d).hasDocker = d.hasDocker := by
  unfold applyFallbackRunStage
  repeat' split
  all_goals rfl

@[simp] theorem assumptionsStage_entrypoint (d : Detected) :
    (applyAssumptionsStage d).entrypoint = d.entrypoint := by
  unfold applyAssumptionsStage applyEnvAssumption applyEntryAssumption
  repeat' split
  all_goals rfl

@[simp] theorem assumptionsStage_hasTests (d : Detected) :
    (applyAssumptionsStage d).hasTests = d.hasTests := by
  unfold applyAssumptionsStage applyEnvAssumption applyEntryAssumption
  repeat' split
  all_goals rfl

@[simp] theorem assumptionsStage_testCommands (d : Detected) :
    (applyAssumptionsStage d).testCommands = d.testCommands := by
  unfold applyAssumptionsStage applyEnvAssumption applyEntryAssumption
  repeat' split
  all_goals rfl

@[simp] theorem assumptionsStage_readme (d : Detected) :
    (applyAssumptionsStage d).readme = d.readme := by
  unfold applyAssumptionsStage applyEnvAssumption applyEntryAssumption
  repeat' split
  all_goals rfl

@[simp] theorem assumptionsStage_license (d : Detected) :
    (applyAssumptionsStage d).license = d.license := by
  unfold applyAssumptionsStage applyEnvAssumption applyEntryAssumption
  repeat' split
  all_goals rfl

@[simp] theorem assumptionsStage_dockerInfo (d : Detected) :
    (applyAssumptionsStage d).dockerInfo = d.dockerInfo := by
  unfold applyAssumptionsStage applyEnvAssumption applyEntryAssumption
  repeat' split
  all_goals rfl

@[simp] theorem assumptionsStage_hasDocker (d : Detected) :
    (applyAssumptionsStage d).hasDocker = d.hasDocker := by
  unfold applyAssumptionsStage applyEnvAssumption applyEntryAssumption
  repeat' split
  all_goals rfl

@[simp] theorem pjStage_readme (d : Detected) (fc : List (String × String))
    (oracles : AnalyzeOracles) : (applyPackageJsonStage d fc oracles).readme = d.readme := by
  unfold applyPackageJsonStage pjSetName pjSetMain pjSetTest pjSetStart pjAddRunCommands pjSetManager
  repeat' split
  all_goals rfl

@[simp] theorem pjStage_license (d : Detected) (fc : List (String × String))
    (oracles : AnalyzeOracles) : (applyPackageJsonStage d fc oracles).license = d.license := by
  unfold applyPackageJsonStage pjSetName pjSetMain pjSetTest pjSetStart pjAddRunCommands pjSetManager
  repeat' split
  all_goals rfl

@[simp] theorem pjStage_dockerInfo (d : Detected) (fc : List (String × String))
    (oracles : AnalyzeOracles) : (applyPackageJsonStage d fc oracles).dockerInfo = d.dockerInfo := by
  unfold applyPackageJsonStage pjSetName pjSetMain pjSetTest pjSetStart pjAddRunCommands pjSetManager
  repeat' split
  all_goals rfl

@[simp] theorem pjStage_hasDocker (d : Detected) (fc : List (String × String))
    (oracles : AnalyzeOracles) : (applyPackageJsonStage d fc oracles).hasDocker = d.hasDocker := by
  unfold applyPackageJsonStage pjSetName pjSetMain pjSetTest pjSetStart pjAddRunCommands pjSetManager
  repeat' split
  all_goals rfl

/-- C7: when the fetched `package.json` snippet parses and declares truthy
`start` and `test` scripts, the analysis reports `hasTests = true`, the
declared test script is among `testCommands`, and `entrypoint` equals the
declared start script — the `node <main>` fallback does not override it. -/
theorem spec_c7 (owner repo ref : String) (tree : List TreeItem)
    (fetch : String → Option String) (oracles : AnalyzeOracles)
    (s : String) (pj : PackageJson) (scr : List (String × String)) (st tst : String)
    (h1 : lookupFC (fileContentsOf tree fetch) ("package.json") = some s) (h2 : s ≠ "")
    (h3 : oracles.parsePackageJson s = some pj) (h4 : pj.scripts = some scr)
    (h5 : scr.lookup ("start") = some st) (h6 : st ≠ "")
    (h7 : scr.lookup ("test") = some tst) (h8 : tst ≠ "") :
    (analyzeRepo owner repo ref tree fetch oracles).detected.hasTests = true ∧
    tst ∈ (analyzeRepo owner repo ref tree fetch oracles).detected.testCommands ∧
    (analyzeRepo owner repo ref tree fetch oracles).detected.entrypoint = some st := by
  have hpj := pjStage_spec initDetected (fileContentsOf tree fetch) oracles s pj scr st tst
    h1 h2 h3 h4 h5 h6 h7 h8
  refine ⟨?_, ?_, ?_⟩
  · show (detectedOf tree (fileContentsOf tree fetch) oracles).hasTests = true
    unfold detectedOf
    simp only [assumptionsStage_hasTests, fallbackRunStage_hasTests, envStage_hasTests]
    apply genericTestsStage_hasTests_true
    simp only [licenseStage_hasTests, readmeStage_hasTests, ciStage_hasTests, dockerStage_hasTests]
    exact pythonStage_hasTests_true _ _ hpj.2.1
  · show tst ∈ (detectedOf tree (fileContentsOf tree fetch) oracles).testCommands
    unfold detectedOf
    simp only [assumptionsStage_testCommands, fallbackRunStage_testCommands, envStage_testCommands]
    apply genericTestsStage_testCommands_mem
    simp only [licenseStage_testCommands, readmeStage_testCommands, ciStage_testCommands,
      dockerStage_testCommands]
    exact pythonStage_testCommands_mem _ _ _ hpj.2.2
  · show (detectedOf tree (fileContentsOf tree fetch) oracles).entrypoint = some st
    unfold detectedOf
    simp only [assumptionsStage_entrypoint, fallbackRunStage_entrypoint, envStage_entrypoint,
      genericTestsStage_entrypoint, licenseStage_entrypoint, readmeStage_entrypoint,
      ciStage_entrypoint]
    rw [dockerStage_entrypoint_truthy]
    · rw [pythonStage_entrypoint]
      exact hpj.1
    · rw [pythonStage_entrypoint, hpj.1]
      simp [jsTruthy, h6]

/-- Closed witness for `spec_c7`: an empty tree whose fetch oracle serves
a `package.json` declaring start and test scripts. -/
theorem spec_c7_witness :
    (analyzeRepo ("o") ("r") ("main") []
        (fun p => if p == ("package.json") then some ("PJ") else none)
        ⟨fun s => if s == ("PJ") then
            some ⟨some [(("start"), ("node server.js")), (("test"), ("jest"))], none, none⟩
          else none,
         fun _ => [], fun _ => [], fun _ => [], fun _ => false, fun _ => []⟩).detected.hasTests = true ∧
    ("jest") ∈ (analyzeRepo ("o") ("r") ("main") []
        (fun p => if p == ("package.json") then some ("PJ") else none)
        ⟨fun s => if s == ("PJ") then
            some ⟨some [(("start"), ("node server.js")), (("test"), ("jest"))], none, none⟩
          else none,
         fun _ => [], fun _ => [], fun _ => [], fun _ => false, fun _ => []⟩).detected.testCommands ∧
    (analyzeRepo ("o") ("r") ("main") []
        (fun p => if p == ("package.json") then some ("PJ") else none)
        ⟨fun s => if s == ("PJ") then
            some ⟨some [(("start"), ("node server.js")), (("test"), ("jest"))], none, none⟩
          else none,
         fun _ => [], fun _ => [], fun _ => [], fun _ => false, fun _ => []⟩).detected.entrypoint =
      some ("node server.js") := by
  set_option maxRecDepth 8000 in
  exact spec_c7 ("o") ("r") ("main") []
    (fun p => if p == ("package.json") then some ("PJ") else none)
    ⟨fun s => if s == ("PJ") then
        some ⟨some [(("start"), ("node server.js")), (("test"), ("jest"))], none, none⟩
      else none,
     fun _ => [], fun _ => [], fun _ => [], fun _ => false, fun _ => []⟩
    ("PJ") ⟨some [(("start"), ("node server.js")), (("test"), ("jest"))], none, none⟩
    [(("start"), ("node server.js")), (("test"), ("jest"))] ("node server.js") ("jest")
    (by decide) (by decide) rfl rfl (by decide) (by decide) (by decide) (by decide)

/-- `dockerInfoOf` on a truthy Dockerfile snippet: first `CMD` capture,
first `ENTRYPOINT` capture (both trimmed), all `EXPOSE` captures in
order. -/
theorem dockerInfoOf_spec (fc : List (String × String)) (oracles : AnalyzeOracles)
    (df : String) (h1 : lookupFC fc ("Dockerfile") = some df) (h2 : df ≠ "") :
    dockerInfoOf fc oracles =
      { cmd := ((oracles.cmdMatches df).head?).map jsTrim
      , entrypoint := ((oracles.entrypointMatches df).head?).map jsTrim
      , exposedPorts := oracles.exposeMatches df } := by
  unfold dockerInfoOf
  simp only [h1]
  rw [if_pos (by simp [h2])]

@[simp] theorem applyDockerTail_hasDocker (d : Detected) (dock : DockerInfo) :
    (applyDockerTail d dock).hasDocker = d.hasDocker := by
  unfold applyDockerTail
  split <;> rfl

@[simp] theorem applyDockerTail_dockerInfo (d : Detected) (dock : DockerInfo) :
    (applyDockerTail d dock).dockerInfo = d.dockerInfo := by
  unfold applyDockerTail
  split <;> rfl

theorem applyDockerTail_entry (d : Detected) (dock : DockerInfo)
    (he : jsTruthy d.entrypoint = false) (hc : jsTruthy dock.cmd = true) :
    (applyDockerTail d dock).entrypoint = dock.cmd := by
  unfold applyDockerTail
  rw [if_pos (by simp [he, hc])]

/-- The Dockerfile stage under a truthy Dockerfile snippet: `hasDocker`
set, `dockerInfo` filled from the extraction, and a falsy pre-existing
entrypoint replaced by the extracted (truthy) run command. -/
theorem dockerStage_spec (d : Detected) (fc : List (String × String))
    (oracles : AnalyzeOracles) (df : String)
    (h1 : lookupFC fc ("Dockerfile") = some df) (h2 : df ≠ "") :
    (applyDockerStage d fc oracles).hasDocker = true ∧
    (applyDockerStage d fc oracles).dockerInfo = some (dockerInfoOf fc oracles) ∧
    (jsTruthy d.entrypoint = false → jsTruthy (dockerInfoOf fc oracles).cmd = true →
      (applyDockerStage d fc oracles).entrypoint = (dockerInfoOf fc oracles).cmd) := by
  have hcond : (jsTruthy (lookupFC fc ("Dockerfile"))
      || jsTruthy (lookupFC fc ("docker-compose.yml"))) = true := by
    simp [h1, jsTruthy, h2]
  unfold applyDockerStage
  rw [if_pos hcond]
  refine ⟨?_, ?_, ?_⟩
  · rw [applyDockerTail_hasDocker]
  · rw [applyDockerTail_dockerInfo]
  · intro he hc
    exact applyDockerTail_entry _ _ he hc

/-- C5 (amended): a fetched truthy Dockerfile snippet sets
`hasDocker = true` and extracts the FIRST declared CMD command and the
FIRST declared ENTRYPOINT command (JavaScript `String.match` without the
global flag returns the first occurrence, not the last), both trimmed,
and all EXPOSE'd ports in order of appearance; and if the manifest
stages left the entrypoint unset, the extracted (truthy) CMD command
becomes the entrypoint. -/
theorem spec_c5 (owner repo ref : String) (tree : List TreeItem)
    (fetch : String → Option String) (oracles : AnalyzeOracles) (df : String)
    (h1 : lookupFC (fileContentsOf tree fetch) ("Dockerfile") = some df) (h2 : df ≠ "") :
    (analyzeRepo owner repo ref tree fetch oracles).detected.hasDocker = true ∧
    (analyzeRepo owner repo ref tree fetch oracles).detected.dockerInfo =
      some (dockerInfoOf (fileContentsOf tree fetch) oracles) ∧
    dockerInfoOf (fileContentsOf tree fetch) oracles =
      { cmd := ((oracles.cmdMatches df).head?).map jsTrim
      , entrypoint := ((oracles.entrypointMatches df).head?).map jsTrim
      , exposedPorts := oracles.exposeMatches df } ∧
    (jsTruthy (applyPythonStage (applyPackageJsonStage initDetected
        (fileContentsOf tree fetch) oracles) (fileContentsOf tree fetch)).entrypoint = false →
     jsTruthy (dockerInfoOf (fileContentsOf tree fetch) oracles).cmd = true →
      (analyzeRepo owner repo ref tree fetch oracles).detected.entrypoint =
        (dockerInfoOf (fileContentsOf tree fetch) oracles).cmd) := by
  have hd := dockerStage_spec (applyPythonStage (applyPackageJsonStage initDetected
    (fileContentsOf tree fetch) oracles) (fileContentsOf tree fetch))
    (fileContentsOf tree fetch) oracles df h1 h2
  refine ⟨?_, ?_, dockerInfoOf_spec _ _ _ h1 h2, ?_⟩
  · show (detectedOf tree (fileContentsOf tree fetch) oracles).hasDocker = true
    unfold detectedOf
    simp only [assumptionsStage_hasDocker, fallbackRunStage_hasDocker, envStage_hasDocker,
      genericTestsStage_hasDocker, licenseStage_hasDocker, readmeStage_hasDocker,
      ciStage_hasDocker]
    exact hd.1
  · show (detectedOf tree (fileContentsOf tree fetch) oracles).dockerInfo =
      some (dockerInfoOf (fileContentsOf tree fetch) oracles)
    unfold detectedOf
    simp only [assumptionsStage_dockerInfo, fallbackRunStage_dockerInfo, envStage_dockerInfo,
      genericTestsStage_dockerInfo, licenseStage_dockerInfo, readmeStage_dockerInfo,
      ciStage_dockerInfo]
    exact hd.2.1
  · intro he hc
    show (detectedOf tree (fileContentsOf tree fetch) oracles).entrypoint =
      (dockerInfoOf (fileContentsOf tree fetch) oracles).cmd
    unfold detectedOf
    simp only [assumptionsStage_entrypoint, fallbackRunStage_entrypoint, envStage_entrypoint,
      genericTestsStage_entrypoint, licenseStage_entrypoint, readmeStage_entrypoint,
      ciStage_entrypoint]
    exact hd.2.2 he hc

/-- Closed witness for `spec_c5`: an empty tree whose fetch oracle serves
a Dockerfile; the regex oracles return the two CMD captures and one
EXPOSE capture of that text. -/
theorem spec_c5_witness :
    (analyzeRepo ("o") ("r") ("main") []
        (fun p => if p == ("Dockerfile") then some ("DF") else none)
        ⟨fun _ => none,
         fun s => if s == ("DF") then [("npm start"), ("node a.js")] else [],
         fun _ => [],
         fun s => if s == ("DF") then [("3000")] else [],
         fun _ => false, fun _ => []⟩).detected.hasDocker = true ∧
    (analyzeRepo ("o") ("r") ("main") []
        (fun p => if p == ("Dockerfile") then some ("DF") else none)
        ⟨fun _ => none,
         fun s => if s == ("DF") then [("npm start"), ("node a.js")] else [],
         fun _ => [],
         fun s => if s == ("DF") then [("3000")] else [],
         fun _ => false, fun _ => []⟩).detected.entrypoint = some ("npm start") := by
  have h := spec_c5 ("o") ("r") ("main") []
    (fun p => if p == ("Dockerfile") then some ("DF") else none)
    ⟨fun _ => none,
     fun s => if s == ("DF") then [("npm start"), ("node a.js")] else [],
     fun _ => [],
     fun s => if s == ("DF") then [("3000")] else [],
     fun _ => false, fun _ => []⟩ ("DF") (by decide) (by decide)
  refine ⟨h.1, ?_⟩
  rw [h.2.2.2 (by decide) (by decide)]
  decide

set_option maxRecDepth 8000 in
/-- C5 counterexample: a Dockerfile whose text declares `CMD a` and then
`CMD b`.  The in-order capture list of `/CMD\s+(.*)/ig` on that text is
["a", "b"], so the last declared CMD is "b"; but the analysis extracts
`cmd = "a"` — the first match, because the source uses non-global
`String.match` — so `dockerInfo.cmd` is not the last declared CMD
command as claimed. -/
theorem spec_c5_counterexample :
    (analyzeRepo ("o") ("r") ("main") [⟨"Dockerfile", "blob"⟩]
        (fun p => if p == ("Dockerfile") then some ("CMD a\nCMD b") else none)
        ⟨fun _ => none,
         fun s => if s == ("CMD a\nCMD b") then [("a"), ("b")] else [],
         fun _ => [], fun _ => [], fun _ => false, fun _ => []⟩).detected.dockerInfo =
      some ⟨some ("a"), none, []⟩ ∧
    (((fun s => if s == ("CMD a\nCMD b") then [("a"), ("b")] else [])
        ("CMD a\nCMD b")).getLast?).map jsTrim = some ("b") ∧
    some ("a") ≠ some ("b") := by
  exact ⟨by decide, by decide, by decide⟩

/-- A key matched by the case-insensitive "license" test is non-empty. -/
theorem license_match_key_ne (k : String)
    (hp : jsIncludes (strToLower k) ("license") = true) : (k != "") = true := by
  by_contra hcon
  simp only [bne_iff_ne, ne_eq, not_not] at hcon
  subst hcon
  have hev : jsIncludes (strToLower ("")) ("license") = false := by decide
  rw [hev] at hp
  cases hp

/-- A key matched by the case-insensitive "readme" test is non-empty. -/
theorem readme_match_key_ne (k : String)
    (hp : jsIncludes (strToLower k) ("readme") = true) : (k != "") = true := by
  by_contra hcon
  simp only [bne_iff_ne, ne_eq, not_not] at hcon
  subst hcon
  have hev : jsIncludes (strToLower ("")) ("readme") = false := by decide
  rw [hev] at hp
  cases hp

/-- The license stage on a record with no license yet: the result is the
key of the first fetched snippet matching `/license/i`, or still none. -/
theorem licenseStage_license_eq (d : Detected) (fc : List (String × String))
    (hd : d.license = none) :
    (applyLicenseStage d fc).license =
      (fc.find? (fun kv => jsIncludes (strToLower kv.1) ("license"))).map (fun kv => kv.1) := by
  unfold applyLicenseStage
  cases hf : fc.find? (fun kv => jsIncludes (strToLower kv.1) ("license")) with
  | none => simpa using hd
  | some kv =>
    have hp := List.find?_some hf
    simp only at hp
    have hne := license_match_key_ne kv.1 hp
    simp [hne]

/-- The readme stage on a record with no readme yet: the result is the
1500-bounded snippet of the first fetched entry matching `/readme/i`, or
still none. -/
theorem readmeStage_readme_eq (d : Detected) (fc : List (String × String))
    (hd : d.readme = none) :
    (applyReadmeStage d fc).readme =
      (fc.find? (fun kv => jsIncludes (strToLower kv.1) ("readme"))).map
        (fun kv => shortSnippet kv.2 1500) := by
  unfold applyReadmeStage
  cases hf : fc.find? (fun kv => jsIncludes (strToLower kv.1) ("readme")) with
  | none => simpa using hd
  | some kv =>
    have hp := List.find?_some hf
    simp only at hp
    have hne := readme_match_key_ne kv.1 hp
    simp [hne]

/-- C8 (amended): `license` and `readme` are drawn from the keys of the
fetched snippet map, not from the whole tree: `license` is the first
fetched path matching "license" case-insensitively (the path only),
`readme` is the 1500-bounded snippet of the first fetched path matching
"readme"; when no fetched key matches, the field stays null — even if
the tree contains a matching blob that was never fetched. -/
theorem spec_c8 (owner repo ref : String) (tree : List TreeItem)
    (fetch : String → Option String) (oracles : AnalyzeOracles) :
    (analyzeRepo owner repo ref tree fetch oracles).detected.license =
      ((fileContentsOf tree fetch).find?
        (fun kv => jsIncludes (strToLower kv.1) ("license"))).map (fun kv => kv.1) ∧
    (analyzeRepo owner repo ref tree fetch oracles).detected.readme =
      ((fileContentsOf tree fetch).find?
        (fun kv => jsIncludes (strToLower kv.1) ("readme"))).map
        (fun kv => shortSnippet kv.2 1500) := by
  constructor
  · show (detectedOf tree (fileContentsOf tree fetch) oracles).license = _
    unfold detectedOf
    simp only [assumptionsStage_license, fallbackRunStage_license, envStage_license,
      genericTestsStage_license]
    rw [licenseStage_license_eq]
    simp only [readmeStage_license, ciStage_license, dockerStage_license, pythonStage_license,
      pjStage_license]
    rfl
  · show (detectedOf tree (fileContentsOf tree fetch) oracles).readme = _
    unfold detectedOf
    simp only [assumptionsStage_readme, fallbackRunStage_readme, envStage_readme,
      genericTestsStage_readme, licenseStage_readme]
    rw [readmeStage_readme_eq]
    simp only [ciStage_readme, dockerStage_readme, pythonStage_readme, pjStage_readme]
    rfl

set_option maxRecDepth 8000 in
/-- C8 counterexample: the tree contains exactly one blob, "LICENSE",
whose path matches "license" case-insensitively and whose content the
fetch oracle could serve — yet the analysis reports `license = none`:
"LICENSE" is not a file of interest (it is neither a well-known
basename, nor a CI path, nor a readme), so it is never fetched, and the
license scan only looks at fetched snippet keys.  The claim, which
quantifies over blobs of the tree, is false at this input. -/
theorem spec_c8_counterexample :
    (analyzeRepo ("o") ("r") ("main") [⟨"LICENSE", "blob"⟩]
        (fun p => if p == ("LICENSE") then some ("MIT License") else none)
        ⟨fun _ => none, fun _ => [], fun _ => [], fun _ => [],
         fun _ => false, fun _ => []⟩).detected.license = none ∧
    jsIncludes (strToLower ("LICENSE")) ("license") = true := by
  exact ⟨by decide, by decide⟩

/-- Closed witness for `spec_c10`: even on the empty tree the
"package.json" priority basename is attempted, and with an always-null
fetch the snippet map holds nothing for it. -/
theorem spec_c10_witness :
    ("package.json") ∈ fetchAttempts [] ∧
    lookupFC (fileContentsOf [] (fun _ => none)) ("package.json") = none :=
  ⟨(spec_c10 [] (fun _ => none)).1 ("package.json") (by decide),
   (spec_c10 [] (fun _ => none)).2 ("package.json") rfl⟩
